import Mathlib

/-!
Shallow embedding of the launch-configuration script
`nvblox_examples_bringup/launch/realsense_example.launch.py` of the
newton-isaac-ros repository.

The script builds a list of launch actions from an argument assignment:
a global parameter override, conditional inclusions of sibling launch
files, one sensor-fusion (`ekf_node`) node with a literal parameter
block, a robot-description action, a rosbag-playback action and a
component container.  We embed an argument assignment as a structure
`Args`, each launch action as a constructor of `LAction` (with its
condition already evaluated into an `enabled` flag), and the body of
`generate_launch_description` as a Lean function producing the list of
actions in source order.

The helper library `isaac_ros_launch_utils` (`lu.*`), the constants
module `nvblox_constants` and the enums of `nvblox_launch_utils` are
not part of the source excerpt; their semantics are modelled from the
specification where a definition below says so.  Substitution values
travel as text in the launch framework; on the `num_cameras` argument
(declared with the integer default 1) the script applies textual
equality with the literal 1 and Python integer parsing, and both
round-trip exactly through decimal rendering, so these two tests are
modelled directly on the natural number.
-/

/-- Modelled from the spec: `NVBLOX_CONTAINER_NAME`, the fixed
container-name constant imported from `nvblox_constants`, which is not
under the source excerpt.  Its concrete text is irrelevant to every
claim; only its fixedness matters. -/
def NVBLOX_CONTAINER_NAME : String := "nvblox_container"

/-- Modelled from the spec: the string form of
`NvbloxCamera.realsense` from `nvblox_launch_utils`. -/
def nvbloxCameraRealsense : String := "realsense"

/-- Modelled from the spec: the string form of
`NvbloxCamera.multi_realsense` from `nvblox_launch_utils`. -/
def nvbloxCameraMultiRealsense : String := "multi_realsense"

/-- Modelled from the spec: `NvbloxMode.names()` from
`nvblox_launch_utils` is not under the source excerpt; the spec fixes
only that `static` is a mode and is the default. -/
def nvbloxModeNames : List String := ["static"]

/-- Modelled from the spec: the default value of `multicam_urdf_path`,
produced in the source by `lu.get_path` joining the package share
directory with the relative path of the calibration URDF. -/
def defaultMulticamUrdfPath : String :=
  "nvblox_examples_bringup/config/urdf/4_realsense_carter_example_calibration.urdf.xacro"

/-- Modelled from the spec: `lu.is_valid` holds of a string argument
that is set to a real value, i.e. neither empty nor the textual default
sentinel "None". -/
def is_valid (s : String) : Bool := s ≠ "" && s ≠ "None"

/-- ASCII lowercasing of a string, character by character. -/
def lowerStr (s : String) : String := ⟨s.data.map Char.toLower⟩

/-- Modelled from the spec: `lu.is_true`, case-insensitive comparison
of the substitution text with "true". -/
def is_true (s : String) : Bool := lowerStr s == "true"

/-- Modelled from the spec: `lu.is_false`, case-insensitive comparison
of the substitution text with "false". -/
def is_false (s : String) : Bool := lowerStr s == "false"

/-- Modelled from the spec: truthiness of a raw condition expression in
the launch framework ("true" in any case, or "1"). -/
def truthy (s : String) : Bool := lowerStr s == "true" || s == "1"

/-- An assignment of the launch arguments declared by the script.
Launch arguments travel as text, except that `num_cameras` (integer
default, only ever compared numerically, see the file comment) is kept
as a natural number. -/
structure Args where
  rosbag : String
  rosbag_args : String
  log_level : String
  num_cameras : Nat
  camera_serial_numbers : String
  multicam_urdf_path : String
  mode : String
  attach_to_container : String
  container_name : String
  run_realsense : String
  navigation : String
deriving DecidableEq, Repr

/-- The default assignment: each field holds the default passed to the
corresponding `args.add_arg` call of the source. -/
def defaultArgs : Args where
  rosbag := "None"
  rosbag_args := ""
  log_level := "info"
  num_cameras := 1
  camera_serial_numbers := ""
  multicam_urdf_path := defaultMulticamUrdfPath
  mode := "static"
  attach_to_container := "False"
  container_name := NVBLOX_CONTAINER_NAME
  run_realsense := "True"
  navigation := "True"

/-- A parameter value handed to a node: booleans, integers, rationals
(standing for the exact decimal literals of the source), strings and
boolean lists. -/
inductive PValue where
  | b (v : Bool)
  | i (v : Int)
  | q (v : ℚ)
  | s (v : String)
  | bl (v : List Bool)
deriving DecidableEq, Repr

/-- One declared launch argument: name, default text, optional choice
set, and whether it was declared with `cli=True`. -/
structure ArgDecl where
  name : String
  dflt : String
  choices : Option (List String)
  cli : Bool
deriving DecidableEq, Repr

/-- A launch action appended to the list returned by
`generate_launch_description`.  An action whose source form carries a
`condition` stores the evaluated condition as its `enabled` flag. -/
inductive LAction where
  | declareArg (d : ArgDecl)
  | setParameter (name : String) (value : Bool) (enabled : Bool)
  | incl (package file : String) (launchArguments : List (String × String))
      (delay : Option ℚ) (enabled : Bool)
  | assertCond (message : String) (triggered : Bool)
  | node (package executable name : String)
      (parameters : List (String × PValue)) (remappings : List (String × String))
  | addRobotDescription (calibrationPath : String) (enabled : Bool)
  | playRosbag (bagPath additionalArgs : String) (enabled : Bool)
  | componentContainer (name logLevel : String) (enabled : Bool)
deriving DecidableEq, Repr

/-- The eleven `args.add_arg` declarations of the source, in order,
with their defaults, choice sets and cli flags. -/
def declaredArgs : List ArgDecl :=
  [⟨"rosbag", "None", none, true⟩,
   ⟨"rosbag_args", "", none, true⟩,
   ⟨"log_level", "info", some ["debug", "info", "warn"], true⟩,
   ⟨"num_cameras", "1", none, true⟩,
   ⟨"camera_serial_numbers", "", none, true⟩,
   ⟨"multicam_urdf_path", defaultMulticamUrdfPath, none, true⟩,
   ⟨"mode", "static", some nvbloxModeNames, true⟩,
   ⟨"attach_to_container", "False", none, true⟩,
   ⟨"container_name", NVBLOX_CONTAINER_NAME, none, false⟩,
   ⟨"run_realsense", "True", none, false⟩,
   ⟨"navigation", "True", none, true⟩]

/-- `args.get_launch_actions()`: one declaration action per argument. -/
def declaredArgActions : List LAction := declaredArgs.map LAction.declareArg

/-- The axis-selection list handed to the filter for the visual-SLAM
odometry input, row for row from the source (position, orientation,
velocity, angular velocity, acceleration). -/
def odom0ConfigList : List Bool :=
  [true, true, false,
   false, false, true,
   false, false, false,
   false, false, true,
   false, false, false]

/-- The axis-selection list handed to the filter for the IMU input,
row for row from the source. -/
def imu0ConfigList : List Bool :=
  [false, false, false,
   true, true, true,
   false, false, false,
   true, true, true,
   true, true, true]

/-- The literal parameter dictionary of the `ekf_filter_node` node,
copied entry for entry from the source. -/
def ekfParameters : List (String × PValue) :=
  [("use_sim_time", .b false),
   ("frequency", .q 30),
   ("sensor_timeout", .q (1 / 10)),
   ("two_d_mode", .b false),
   ("map_frame", .s "map"),
   ("odom_frame", .s "odom"),
   ("base_link_frame", .s "camera0_link"),
   ("world_frame", .s "odom"),
   ("odom0", .s "/visual_slam/tracking/odometry"),
   ("odom0_config", .bl odom0ConfigList),
   ("odom0_queue_size", .i 10),
   ("odom0_nodelay", .b true),
   ("odom0_differential", .b false),
   ("odom0_relative", .b false),
   ("imu0", .s "/imu_data"),
   ("imu0_config", .bl imu0ConfigList),
   ("imu0_queue_size", .i 10),
   ("imu0_nodelay", .b true),
   ("imu0_differential", .b false),
   ("imu0_relative", .b false),
   ("imu0_remove_gravitational_acceleration", .b true)]

/-- The `ekf_filter_node` Node action of the source. -/
def ekfNodeAction : LAction :=
  .node "robot_localization" "ekf_node" "ekf_filter_node" ekfParameters
    [("/odometry/filtered", "/odom")]

/-- The camera-mode substitution: `lu.if_else_substitution` over
`lu.is_equal(args.num_cameras, '1')` (numeric equality after the exact
decimal round-trip, see the file comment). -/
def camera_mode (a : Args) : String :=
  if a.num_cameras == 1 then nvbloxCameraRealsense else nvbloxCameraMultiRealsense

/-- The message of the camera-count assertion action. -/
def assertMsg : String :=
  "Up to 4 cameras have been tested! num_cameras must be less than 5."

/-- The body of `generate_launch_description`: the declared-argument
actions followed by the appended actions, in source order, each
condition evaluated against the assignment. -/
def generate_launch_description (a : Args) : List LAction :=
  declaredArgActions ++
  [LAction.setParameter "use_sim_time" true (is_valid a.rosbag),
   LAction.incl "nvblox_examples_bringup"
     "launch/navigation/nvblox_newton_navigation.launch.py"
     [("container_name", NVBLOX_CONTAINER_NAME), ("mode", a.mode)]
     none (is_true a.navigation),
   LAction.assertCond assertMsg (decide (4 < a.num_cameras)),
   LAction.incl "nvblox_examples_bringup" "launch/sensors/realsense.launch.py"
     [("container_name", a.container_name),
      ("camera_serial_numbers", a.camera_serial_numbers),
      ("num_cameras", toString a.num_cameras)]
     none (!(is_valid a.rosbag || is_false a.run_realsense)),
   LAction.incl "nvblox_examples_bringup" "launch/perception/vslam.launch.py"
     [("container_name", a.container_name), ("camera", camera_mode a)]
     (some 1) true,
   LAction.incl "nvblox_examples_bringup" "launch/perception/nvblox.launch.py"
     [("container_name", a.container_name), ("mode", a.mode),
      ("camera", camera_mode a), ("num_cameras", toString a.num_cameras)]
     none true,
   ekfNodeAction,
   LAction.addRobotDescription a.multicam_urdf_path (!(a.num_cameras == 1)),
   LAction.playRosbag a.rosbag a.rosbag_args (is_valid a.rosbag),
   LAction.componentContainer NVBLOX_CONTAINER_NAME a.log_level
     (!(truthy a.attach_to_container))]

/-- The node actions of an action list. -/
def nodeActions (l : List LAction) : List LAction :=
  l.filter fun x => match x with
    | .node _ _ _ _ _ => true
    | _ => false

/-- Look a parameter up in a node parameter block. -/
def paramOf (ps : List (String × PValue)) (k : String) : Option PValue :=
  (ps.find? fun p => p.1 == k).map Prod.snd

/-- The inclusions of a given launch file: their launch arguments and
enabled flag, in order. -/
def inclsTo (l : List LAction) (file : String) : List (List (String × String) × Bool) :=
  l.filterMap fun x => match x with
    | .incl _ f la _ en => if f == file then some (la, en) else none
    | _ => none

/-- Look a launch argument up in an inclusion's argument list. -/
def argOf (la : List (String × String)) (k : String) : Option String :=
  (la.find? fun p => p.1 == k).map Prod.snd

/-- The assertion actions of an action list: message and whether the
condition triggered. -/
def assertsOf (l : List LAction) : List (String × Bool) :=
  l.filterMap fun x => match x with
    | .assertCond m t => some (m, t)
    | _ => none

/-- The global parameter overrides of an action list: name, value and
enabled flag. -/
def setParamsOf (l : List LAction) : List (String × Bool × Bool) :=
  l.filterMap fun x => match x with
    | .setParameter n v en => some (n, v, en)
    | _ => none

/-- The component-container actions of an action list: name, log level
and enabled flag. -/
def containersOf (l : List LAction) : List (String × String × Bool) :=
  l.filterMap fun x => match x with
    | .componentContainer n lvl en => some (n, lvl, en)
    | _ => none

/-- The declared-argument actions of an action list. -/
def declsOf (l : List LAction) : List ArgDecl :=
  l.filterMap fun x => match x with
    | .declareArg d => some d
    | _ => none

/-- The containers of an action list whose condition enables them:
name and log level. -/
def enabledContainers (l : List LAction) : List (String × String) :=
  (containersOf l).filterMap fun c => if c.2.2 then some (c.1, c.2.1) else none

/-- The enabled flags of the inclusions of a given launch file. -/
def inclEnabledFlags (l : List LAction) (file : String) : List Bool :=
  (inclsTo l file).map Prod.snd

/-- The value of a given launch argument in each inclusion of a given
launch file. -/
def inclArgValues (l : List LAction) (file : String) (k : String) : List (Option String) :=
  (inclsTo l file).map fun p => argOf p.1 k

/-- C1: for every assignment of the launch arguments, the launch
description contains exactly one fusion (ekf) node, its parameter
block is the fixed literal dictionary — odometry input
`/visual_slam/tracking/odometry`, IMU input `/imu_data`, frames `map`,
`odom` (both odom_frame and world_frame) and `camera0_link`, and two
15-element boolean axis-selection lists — and its only remapping maps
`/odometry/filtered` to `/odom`, identically for all arguments. -/
theorem fusion_node_block_fixed (a : Args) :
    nodeActions (generate_launch_description a) =
      [LAction.node "robot_localization" "ekf_node" "ekf_filter_node" ekfParameters
        [("/odometry/filtered", "/odom")]] ∧
    paramOf ekfParameters "odom0" = some (.s "/visual_slam/tracking/odometry") ∧
    paramOf ekfParameters "imu0" = some (.s "/imu_data") ∧
    paramOf ekfParameters "map_frame" = some (.s "map") ∧
    paramOf ekfParameters "odom_frame" = some (.s "odom") ∧
    paramOf ekfParameters "world_frame" = some (.s "odom") ∧
    paramOf ekfParameters "base_link_frame" = some (.s "camera0_link") ∧
    paramOf ekfParameters "odom0_config" = some (.bl odom0ConfigList) ∧
    paramOf ekfParameters "imu0_config" = some (.bl imu0ConfigList) ∧
    odom0ConfigList.length = 15 ∧ imu0ConfigList.length = 15 :=
  ⟨rfl, rfl, rfl, rfl, rfl, rfl, rfl, rfl, rfl, rfl, rfl⟩

/-- C2: the camera-count assertion condition triggers exactly when
`num_cameras > 4`; in particular it is off for 1, 2, 3 and 4 cameras
and on for 5, whatever the other arguments are. -/
theorem camera_count_assertion (a : Args) :
    assertsOf (generate_launch_description a)
      = [(assertMsg, decide (4 < a.num_cameras))] ∧
    (assertsOf (generate_launch_description a) = [(assertMsg, true)]
      ↔ 4 < a.num_cameras) ∧
    assertsOf (generate_launch_description { a with num_cameras := 1 })
      = [(assertMsg, false)] ∧
    assertsOf (generate_launch_description { a with num_cameras := 2 })
      = [(assertMsg, false)] ∧
    assertsOf (generate_launch_description { a with num_cameras := 3 })
      = [(assertMsg, false)] ∧
    assertsOf (generate_launch_description { a with num_cameras := 4 })
      = [(assertMsg, false)] ∧
    assertsOf (generate_launch_description { a with num_cameras := 5 })
      = [(assertMsg, true)] := by
  refine ⟨rfl, ?_, rfl, rfl, rfl, rfl, rfl⟩
  show [(assertMsg, decide (4 < a.num_cameras))] = [(assertMsg, true)] ↔ _
  simp

/-- C3: the camera-mode string handed to both the vslam and the nvblox
sub-launches is "realsense" when `num_cameras` is 1 and
"multi_realsense" otherwise. -/
theorem camera_mode_selection (a : Args) :
    inclArgValues (generate_launch_description a)
        "launch/perception/vslam.launch.py" "camera"
      = [some (if a.num_cameras = 1 then "realsense" else "multi_realsense")] ∧
    inclArgValues (generate_launch_description a)
        "launch/perception/nvblox.launch.py" "camera"
      = [some (if a.num_cameras = 1 then "realsense" else "multi_realsense")] := by
  have h : camera_mode a
      = if a.num_cameras = 1 then "realsense" else "multi_realsense" := by
    by_cases h1 : a.num_cameras = 1 <;>
      simp [camera_mode, h1, nvbloxCameraRealsense, nvbloxCameraMultiRealsense]
  constructor
  · show [some (camera_mode a)] = _
    rw [h]
  · show [some (camera_mode a)] = _
    rw [h]

/-- C4: the launch description carries exactly one global parameter
override, setting use_sim_time to true, and it is enabled exactly when
the rosbag argument is set, i.e. neither empty nor the "None"
default (off on the default assignment). -/
theorem use_sim_time_condition (a : Args) :
    setParamsOf (generate_launch_description a)
      = [("use_sim_time", true, is_valid a.rosbag)] ∧
    (is_valid a.rosbag = true ↔ (a.rosbag ≠ "" ∧ a.rosbag ≠ "None")) ∧
    is_valid defaultArgs.rosbag = false := by
  refine ⟨rfl, ?_, rfl⟩
  simp [is_valid]

/-- C5: the realsense sensor-driver sub-launch is included exactly when
the rosbag argument is not set and run_realsense is not false. -/
theorem realsense_driver_condition (a : Args) :
    inclEnabledFlags (generate_launch_description a)
        "launch/sensors/realsense.launch.py"
      = [!(is_valid a.rosbag || is_false a.run_realsense)] ∧
    (inclEnabledFlags (generate_launch_description a)
        "launch/sensors/realsense.launch.py" = [true]
      ↔ (is_valid a.rosbag = false ∧ is_false a.run_realsense = false)) := by
  refine ⟨rfl, ?_⟩
  show [!(is_valid a.rosbag || is_false a.run_realsense)] = [true] ↔ _
  simp

/-- C6: when attach_to_container holds, no component container is
enabled; otherwise exactly one is, carrying the log_level argument.
The default "False" does not hold, the value "True" does. -/
theorem container_creation (a : Args) :
    containersOf (generate_launch_description a)
      = [(NVBLOX_CONTAINER_NAME, a.log_level, !(truthy a.attach_to_container))] ∧
    enabledContainers (generate_launch_description a)
      = (if truthy a.attach_to_container then []
         else [(NVBLOX_CONTAINER_NAME, a.log_level)]) ∧
    truthy "True" = true ∧ truthy "False" = false := by
  refine ⟨rfl, ?_, by decide, by decide⟩
  have hc : containersOf (generate_launch_description a)
      = [(NVBLOX_CONTAINER_NAME, a.log_level, !(truthy a.attach_to_container))] := rfl
  simp only [enabledContainers, hc]
  cases h : truthy a.attach_to_container <;> simp [h]

/-- C7: the navigation sub-launch is included exactly when the
navigation argument is true (case-insensitively); its default is
"True", so it is enabled on the default assignment. -/
theorem navigation_condition (a : Args) :
    inclEnabledFlags (generate_launch_description a)
        "launch/navigation/nvblox_newton_navigation.launch.py"
      = [is_true a.navigation] ∧
    (inclEnabledFlags (generate_launch_description a)
        "launch/navigation/nvblox_newton_navigation.launch.py" = [true]
      ↔ lowerStr a.navigation = "true") ∧
    defaultArgs.navigation = "True" ∧
    inclEnabledFlags (generate_launch_description defaultArgs)
        "launch/navigation/nvblox_newton_navigation.launch.py" = [true] := by
  refine ⟨rfl, ?_, rfl, by decide⟩
  show [is_true a.navigation] = [true] ↔ _
  simp [is_true]

/-- C8: the script declares exactly the eleven arguments of the spec's
interface table, in order, with the listed defaults, and the log_level
argument is restricted to the choice set debug, info, warn. -/
theorem declared_arguments (a : Args) :
    declsOf (generate_launch_description a) = declaredArgs ∧
    declaredArgs.map (fun d => (d.name, d.dflt)) =
      [("rosbag", "None"), ("rosbag_args", ""), ("log_level", "info"),
       ("num_cameras", "1"), ("camera_serial_numbers", ""),
       ("multicam_urdf_path", defaultMulticamUrdfPath), ("mode", "static"),
       ("attach_to_container", "False"),
       ("container_name", NVBLOX_CONTAINER_NAME),
       ("run_realsense", "True"), ("navigation", "True")] ∧
    declaredArgs.length = 11 ∧
    (declaredArgs.find? fun d => d.name == "log_level").map ArgDecl.choices
      = some (some ["debug", "info", "warn"]) :=
  ⟨rfl, rfl, rfl, rfl⟩

/-- C9: changing only the container_name argument leaves the
navigation inclusion and the component-container action unchanged:
both are given the fixed constant, while the realsense, vslam and
nvblox inclusions receive the container_name argument. -/
theorem container_name_noninterference (a : Args) (s : String) :
    inclsTo (generate_launch_description { a with container_name := s })
        "launch/navigation/nvblox_newton_navigation.launch.py"
      = inclsTo (generate_launch_description a)
        "launch/navigation/nvblox_newton_navigation.launch.py" ∧
    containersOf (generate_launch_description { a with container_name := s })
      = containersOf (generate_launch_description a) ∧
    inclArgValues (generate_launch_description a)
        "launch/navigation/nvblox_newton_navigation.launch.py" "container_name"
      = [some NVBLOX_CONTAINER_NAME] ∧
    (containersOf (generate_launch_description a)).map Prod.fst
      = [NVBLOX_CONTAINER_NAME] ∧
    inclArgValues (generate_launch_description a)
        "launch/sensors/realsense.launch.py" "container_name"
      = [some a.container_name] ∧
    inclArgValues (generate_launch_description a)
        "launch/perception/vslam.launch.py" "container_name"
      = [some a.container_name] ∧
    inclArgValues (generate_launch_description a)
        "launch/perception/nvblox.launch.py" "container_name"
      = [some a.container_name] :=
  ⟨rfl, rfl, rfl, rfl, rfl, rfl, rfl⟩

/-- C10: for every assignment — in particular when rosbag is set and
the global override forces use_sim_time true — the fusion node's own
parameter block sets use_sim_time to false. -/
theorem fusion_sim_time_false (a : Args) :
    nodeActions (generate_launch_description a) =
      [LAction.node "robot_localization" "ekf_node" "ekf_filter_node" ekfParameters
        [("/odometry/filtered", "/odom")]] ∧
    paramOf ekfParameters "use_sim_time" = some (.b false) ∧
    setParamsOf (generate_launch_description a)
      = [("use_sim_time", true, is_valid a.rosbag)] :=
  ⟨rfl, rfl, rfl⟩
